import Mathlib

/-
Verification of the DriveLaw OTP authentication workflow.

Shallow embedding of:
  - app/models/user.py        (UnverifiedUser row)
  - app/core/security.py      (create_jwt_token, decode_jwt_token, get_current_user)
  - app/api/v1/routers/auth.py (send-otp / verify-otp / me route handlers)
  - app/services/otpService.py is imported by auth.py but its source is not in
    the repository snapshot; its send/verify state machine is modelled from the
    specification (each such definition is marked `Modelled from the spec`).

Time is modelled as natural-number seconds.  Machine state that the Python
code keeps in the database (the UnverifiedUser row for one contact, the users
table) is passed explicitly.  Python dicts are association lists; JWT
signing is modelled by tagging a token with its signing key, so signature
verification is key equality; PyJWT's expiry rule (`exp <= now` raises
ExpiredSignatureError) is embedded directly.
-/

/-! ## Tunable policy constants (spec 4.5: MAX_ATTEMPTS, LOCK_DURATION; 4.2: 5-minute code) -/

/-- Code lifetime in seconds: `expires_at = now + 5 minutes` (spec 4.2). -/
def OTP_TTL : Nat := 5 * 60

/-- Modelled from the spec: lockout threshold, "e.g. 5" (spec 4.3 step 4, 4.5). -/
def MAX_ATTEMPTS : Nat := 5

/-- Modelled from the spec: lock duration, "e.g. 15 minutes" (spec 4.3 step 4, 4.5). -/
def LOCK_DURATION : Nat := 15 * 60

/-! ## Data model: the pending-verification row (app/models/user.py, UnverifiedUser) -/

/-- The `unverified_users` row for one contact (app/models/user.py lines 6-20).
The contact key (email/phone) is implicit: every operation below acts on the
row `Option UnverifiedUser` held for one fixed contact. -/
structure UnverifiedUser where
  otp_secret : String
  otp_expires : Nat
  verification_channel : String
  verification_attempts : Nat
  is_locked : Bool
  lock_expires : Nat
deriving DecidableEq

/-- Verifier outcome enumeration, as used by the verify-otp route handler
(app/api/v1/routers/auth.py imports OTPVerificationStatus and branches on
exactly these six members). -/
inductive OTPVerificationStatus where
  | SUCCESS
  | LOCKED
  | CODE_EXPIRED
  | CODE_INVALID
  | MAX_ATTEMPTS
  | NOT_FOUND
deriving DecidableEq

/-- An active lock: the row is locked and the lock has not yet expired
(spec 4.2/4.3: `locked` and `now < lock_expires_at`). -/
def lockActive (u : UnverifiedUser) (now : Nat) : Bool :=
  u.is_locked && decide (now < u.lock_expires)

/-- Whether a send-otp call may proceed on the current row: it fails only when
an existing row holds an active lock (spec 4.2). -/
def sendAllowed (row : Option UnverifiedUser) (now : Nat) : Bool :=
  match row with
  | none => true
  | some u => !lockActive u now

/-- Outcome of the issuer's persistence step. -/
inductive SendResult where
  | sent (u : UnverifiedUser)
  | lockedOut
deriving DecidableEq

/-- Modelled from the spec: `send_otp` of app/services/otpService.py (absent
from the snapshot), spec 4.2: if an existing row is locked and
`now < lock_expires_at` fail with LockedOutError; otherwise upsert the row
with the fresh code, `expires_at = now + 5 minutes`, `attempt_count = 0`,
and `locked` cleared. -/
def send_otp (row : Option UnverifiedUser) (now : Nat) (code : String)
    (channel : String) : SendResult :=
  if sendAllowed row now then
    .sent ⟨code, now + OTP_TTL, channel, 0, false, 0⟩
  else
    .lockedOut

/-- Modelled from the spec: `verify_otp` of app/services/otpService.py (absent
from the snapshot), spec 4.3 steps 1-5: NOT_FOUND when no row exists; LOCKED
under an active lock; CODE_EXPIRED at or after expiry (row retained
unchanged); on mismatch increment the attempt count and lock at the
threshold; on match succeed and clear the row.  Returns the outcome together
with the row as left in the database. -/
def verify_otp (row : Option UnverifiedUser) (now : Nat) (code : String) :
    OTPVerificationStatus × Option UnverifiedUser :=
  match row with
  | none => (.NOT_FOUND, none)
  | some u =>
    if lockActive u now then
      (.LOCKED, some u)
    else if u.otp_expires ≤ now then
      (.CODE_EXPIRED, some u)
    else if code ≠ u.otp_secret then
      if MAX_ATTEMPTS ≤ u.verification_attempts + 1 then
        (.MAX_ATTEMPTS,
         some { u with
                verification_attempts := u.verification_attempts + 1
                is_locked := true
                lock_expires := now + LOCK_DURATION })
      else
        (.CODE_INVALID, some { u with verification_attempts := u.verification_attempts + 1 })
    else
      (.SUCCESS, none)

/-- Run a sequence of verify calls, each a (time, submitted code) pair,
threading the stored row; returns the outcome of every call and the final
row. -/
def runVerifies (row : Option UnverifiedUser) :
    List (Nat × String) → List OTPVerificationStatus × Option UnverifiedUser
  | [] => ([], row)
  | (t, c) :: rest =>
    let step := verify_otp row t c
    let restRun := runVerifies step.2 rest
    (step.1 :: restRun.1, restRun.2)

/-! ## JSON / claims values and dictionaries -/

/-- A JSON-ish claim value: string, integer, boolean, or null. -/
inductive ClaimVal where
  | s (v : String)
  | n (v : Nat)
  | b (v : Bool)
  | null
deriving DecidableEq

/-- A Python dict with string keys, as an association list in insertion
order. -/
abbrev ClaimsDict := List (String × ClaimVal)

/-- Dict lookup: `d.get(k)`. -/
def dictGet : ClaimsDict → String → Option ClaimVal
  | [], _ => none
  | (k0, v0) :: rest, k => if k0 = k then some v0 else dictGet rest k

/-- Dict key assignment as performed by `d.update({k: v})`: overwrite in
place when the key exists, append otherwise. -/
def dictSet : ClaimsDict → String → ClaimVal → ClaimsDict
  | [], k, v => [(k, v)]
  | (k0, v0) :: rest, k, v =>
    if k0 = k then (k, v) :: rest else (k0, v0) :: dictSet rest k v

/-! ## Session-token codec (app/core/security.py lines 34-56) -/

/-- A signed JWT: the payload plus the key it was signed with.  Signature
verification is modelled as key equality, which is exact for HMAC signing
with a fixed server secret. -/
structure JwtToken where
  payload : ClaimsDict
  signKey : String
deriving DecidableEq

/-- `create_jwt_token(data, expires_delta)` (security.py lines 34-43): copy
the caller's dict, set `exp = now + expires_delta` and `iat = now` on the
copy, and sign it with the server key. -/
def create_jwt_token (data : ClaimsDict) (now : Nat) (expires_delta : Nat)
    (key : String) : JwtToken :=
  ⟨dictSet (dictSet data "exp" (.n (now + expires_delta))) "iat" (.n now), key⟩

/-- The two decode failures PyJWT distinguishes and the routes branch on. -/
inductive JwtError where
  | ExpiredSignatureError
  | InvalidTokenError
deriving DecidableEq

/-- `decode_jwt_token(token)` (security.py lines 45-56) with PyJWT semantics:
a bad signature is InvalidTokenError; with a valid signature, an integer
`exp` with `exp <= now` raises ExpiredSignatureError; a non-integer `exp`
is a decode (invalid-token) error; otherwise the payload is returned. -/
def decode_jwt_token (tok : JwtToken) (key : String) (now : Nat) :
    Except JwtError ClaimsDict :=
  if tok.signKey ≠ key then
    .error .InvalidTokenError
  else
    match dictGet tok.payload "exp" with
    | none => .ok tok.payload
    | some (.n exp) =>
      if exp ≤ now then .error .ExpiredSignatureError else .ok tok.payload
    | some _ => .error .InvalidTokenError

/-- Session-token lifetime in seconds: `30 days` when remember else `1 hour`
(auth.py line 112 for the cookie; spec 4.3 step 5 for the token). -/
def session_ttl (remember : Bool) : Nat :=
  if remember then 30 * 24 * 60 * 60 else 60 * 60

/-- Modelled from the spec: the token minted by otpService on a successful
verification (spec 4.3 step 5, 4.4) — subject id, onboarding flag, and role,
with expiry `30 days` if remember else `1 hour`, signed with the server
key. -/
def mint_session_token (sub : Nat) (onboarding : Bool) (role : String)
    (now : Nat) (remember : Bool) (key : String) : JwtToken :=
  create_jwt_token
    [("sub", .n sub), ("onboarding", .b onboarding), ("role", .s role)]
    now (session_ttl remember) key

/-! ## Heap model of Python dict mutation (for create_jwt_token's copy) -/

/-- A heap of dict objects; addresses are list indices.  Used to state that
`create_jwt_token` mutates only its private copy of the caller's dict. -/
abbrev Heap := List ClaimsDict

/-- Read the dict at an address (missing addresses read as empty). -/
def heapGet : Heap → Nat → ClaimsDict
  | [], _ => []
  | d :: _, 0 => d
  | _ :: rest, a + 1 => heapGet rest a

/-- In-place `d.update({k: v})` on the dict object at address `a`. -/
def heapSet : Heap → Nat → String → ClaimVal → Heap
  | [], _, _, _ => []
  | d :: rest, 0, k, v => dictSet d k v :: rest
  | d :: rest, a + 1, k, v => d :: heapSet rest a k v

/-- `create_jwt_token` on the heap, following the source line by line:
`to_encode = data.copy()` allocates a fresh dict object; the `exp` and `iat`
updates mutate that fresh object; the token is built from it (security.py
lines 34-43).  Returns the post-call heap and the token. -/
def create_jwt_token_heap (h : Heap) (a : Nat) (now ttl : Nat) (key : String) :
    Heap × JwtToken :=
  let b := h.length
  let h1 := h ++ [heapGet h a]
  let h2 := heapSet (heapSet h1 b "exp" (.n (now + ttl))) b "iat" (.n now)
  (h2, ⟨heapGet h2 b, key⟩)

/-! ## HTTP layer (app/api/v1/routers/auth.py) -/

/-- The attributes `set_auth_cookie` fixes on the auth cookie
(auth.py lines 32-55). -/
structure CookieSpec where
  key : String
  value : String
  httponly : Bool
  secure : Bool
  samesite : String
  domain : Option String
  max_age : Nat
deriving DecidableEq

/-- `set_auth_cookie(response, token, expires)` (auth.py lines 32-55):
both environment branches set an http-only `auth_token` cookie carrying the
token with `max_age = int(expires.total_seconds())`; they differ in the
secure/samesite/domain attributes. -/
def set_auth_cookie (env : String) (cookieDomain : Option String)
    (token : String) (expiresSeconds : Nat) : CookieSpec :=
  if env = "development" then
    ⟨"auth_token", token, true, env == "production",
      if env == "production" then "none" else "lax", cookieDomain, expiresSeconds⟩
  else
    ⟨"auth_token", token, true, true, "none", none, expiresSeconds⟩

/-- A route handler result: a 200 JSON body (with an optional set cookie), or
an HTTPException with a status code and detail string. -/
inductive HttpResult where
  | ok (body : ClaimsDict) (cookie : Option CookieSpec)
  | httpError (code : Nat) (detail : String)
deriving DecidableEq

/-- The HTTP status of a handler result. -/
def HttpResult.statusCode : HttpResult → Nat
  | .ok _ _ => 200
  | .httpError c _ => c

/-- The POST /auth/send-otp handler (auth.py lines 58-83): a locked-out
service call (ValueError) maps to 403; a dispatch or other failure maps to
500 "You are not connected"; success returns 200 with the message body.
`deliveryOk` models whether the outbound notification call raised. -/
def send_otp_route (row : Option UnverifiedUser) (now : Nat) (code : String)
    (channel : String) (deliveryOk : Bool) : HttpResult :=
  match send_otp row now code channel with
  | .lockedOut =>
    .httpError 403 "Too many incorrect attempts. You have been temporarily locked out."
  | .sent _ =>
    if deliveryOk then
      .ok [("message", .s ("OTP sent via " ++ channel))] none
    else
      .httpError 500 "You are not connected"

/-- The POST /auth/verify-otp handler's mapping from the verifier outcome to
the HTTP response (auth.py lines 86-133).  `none` models a service result
whose status field is absent or matches none of the six enum members, which
falls through every branch to the final 500. -/
def verify_otp_route (st : Option OTPVerificationStatus) (remember : Bool)
    (token : String) (onboarding : Bool) (role : String)
    (env : String) (cookieDomain : Option String) : HttpResult :=
  match st with
  | some .SUCCESS =>
    .ok [("message", .s "OTP verified successfully"),
         ("onboarding", .b onboarding), ("role", .s role)]
      (some (set_auth_cookie env cookieDomain token (session_ttl remember)))
  | some .LOCKED => .httpError 403 "You are temporarily locked. Please try again later."
  | some .CODE_EXPIRED => .httpError 400 "OTP has expired."
  | some .CODE_INVALID => .httpError 400 "Invalid OTP."
  | some .MAX_ATTEMPTS => .httpError 403 "Too many failed attempts. You are now locked."
  | some .NOT_FOUND => .httpError 404 "OTP session not found."
  | none => .httpError 500 "Unexpected error"

/-! ## GET /auth/me and the shared get_current_user dependency -/

/-- A row of the `users` table with the fields /auth/me reads. -/
structure UserRow where
  id : Nat
  role : String
  is_active : Bool
deriving DecidableEq

/-- `select(User).where(User.id == user_id)` / `db.get(User, user_id)`. -/
def dbGetUser (db : List UserRow) (uid : Nat) : Option UserRow :=
  db.find? (fun u => u.id == uid)

/-- What the auth_token cookie may carry: a structurally valid JWT, or a
string PyJWT cannot parse at all. -/
inductive TokenBlob where
  | valid (tok : JwtToken)
  | garbage
deriving DecidableEq

/-- Outcome of running `decode_jwt_token` on a cookie value. -/
inductive DecodeOutcome where
  | ok (payload : ClaimsDict)
  | expired
  | invalid
deriving DecidableEq

/-- Decode a cookie value: unparsable strings are invalid-token errors;
otherwise `decode_jwt_token` decides between expired / invalid / payload. -/
def decodeBlob (blob : TokenBlob) (key : String) (now : Nat) : DecodeOutcome :=
  match blob with
  | .garbage => .invalid
  | .valid tok =>
    match decode_jwt_token tok key now with
    | .ok p => .ok p
    | .error .ExpiredSignatureError => .expired
    | .error .InvalidTokenError => .invalid

/-- `int(payload.get("sub"))`: succeeds on an integer or a decimal-string
claim; anything else (absent, null, boolean, non-numeric string) raises and
is caught by the handler's generic except. -/
def parseSub (p : ClaimsDict) : Option Nat :=
  match dictGet p "sub" with
  | some (.n v) => some v
  | some (.s str) => str.toNat?
  | _ => none

/-- The GET /auth/me handler (auth.py lines 137-172): 401 on a missing
cookie, expired token, invalid token, unparsable sub, or a sub matching no
user; otherwise 200 with the authenticated/user_id/onboarding/role/is_active
body built from the payload and the user row.  On the no-matching-user
branch the code raises HTTPException(401, "Invalid token claims") inside the
try block (line 154); HTTPException subclasses Exception, so the generic
`except Exception` (line 170) catches it and re-raises
HTTPException(401, "Authentication failed") — the observable response
detail for that branch is therefore "Authentication failed", the same as
for an unparsable sub. -/
def auth_me (cookie : Option TokenBlob) (key : String) (now : Nat)
    (db : List UserRow) : HttpResult :=
  match cookie with
  | none => .httpError 401 "Not authenticated"
  | some blob =>
    match decodeBlob blob key now with
    | .expired => .httpError 401 "Token expired"
    | .invalid => .httpError 401 "Invalid token"
    | .ok payload =>
      match parseSub payload with
      | none => .httpError 401 "Authentication failed"
      | some uid =>
        match dbGetUser db uid with
        | none => .httpError 401 "Authentication failed"
        | some u =>
          .ok [("authenticated", .b true),
               ("user_id", (dictGet payload "sub").getD .null),
               ("onboarding", (dictGet payload "onboarding").getD (.b false)),
               ("role", .s u.role),
               ("is_active", .b u.is_active)] none

/-- Result of the shared dependency `get_current_user` of
app/core/security.py: the resolved user, or an HTTPException. -/
inductive GcuResult where
  | user (u : UserRow)
  | httpError (code : Nat) (detail : String)
deriving DecidableEq

/-- The shared `get_current_user` dependency (security.py lines 58-75): 401
on a missing cookie or any decode/int failure, 404 "User not found" when the
subject id matches no user, else the user. -/
def get_current_user_dep (cookie : Option TokenBlob) (key : String)
    (now : Nat) (db : List UserRow) : GcuResult :=
  match cookie with
  | none => .httpError 401 "Not authenticated"
  | some blob =>
    match decodeBlob blob key now with
    | .ok payload =>
      match parseSub payload with
      | none => .httpError 401 "Invalid or expired token"
      | some uid =>
        match dbGetUser db uid with
        | none => .httpError 404 "User not found"
        | some u => .user u
    | _ => .httpError 401 "Invalid or expired token"

/-- The row as left by the wrong-code attempt that crosses the lockout
threshold at time `tlast` (spec 4.3 step 4): attempt count at the threshold,
locked, `lock_expires_at = now + LOCK_DURATION`. -/
def lockedRow (u : UnverifiedUser) (tlast : Nat) : UnverifiedUser :=
  { u with
    verification_attempts := MAX_ATTEMPTS
    is_locked := true
    lock_expires := tlast + LOCK_DURATION }

/-! ## Concrete inputs used by witnesses and counterexamples -/

/-- A fresh pending row: code "123456" sent at time 0, so it expires at 300. -/
def uFresh : UnverifiedUser := ⟨"123456", 300, "email", 0, false, 0⟩

/-- A row whose code has expired (expiry 300) while an active lock runs until
time 1000. -/
def uLockedExpired : UnverifiedUser := ⟨"123456", 300, "email", 5, true, 1000⟩

/-- A session token for subject 7 with no expiry claim, signed with "k". -/
def tokSub7 : JwtToken := ⟨[("sub", .n 7), ("onboarding", .b true)], "k"⟩

/-- A users table holding exactly subject 7. -/
def dbSub7 : List UserRow := [⟨7, "driver", true⟩]

/-- A one-dict heap for the frame-effect witness. -/
def heapW : Heap := [[("sub", .n 1)]]

/-- Four wrong-code verify calls against uFresh, all before its expiry. -/
def callsW : List (Nat × String) :=
  [(0, "111111"), (1, "111111"), (2, "111111"), (3, "111111")]

/-- A token for subject 7 signed with "k" whose exp claim is 3, so it is
expired at every time from 3 on. -/
def tokExpired : JwtToken := ⟨[("sub", .n 7), ("exp", .n 3)], "k"⟩

/-! ## General lemmas about dictionaries and the heap -/

/-- Looking up after an assignment: the assigned key reads the new value,
every other key is untouched. -/
theorem dictGet_dictSet (d : ClaimsDict) (k k' : String) (v : ClaimVal) :
    dictGet (dictSet d k v) k' = if k' = k then some v else dictGet d k' := by
  induction d with
  | nil =>
    rcases eq_or_ne k' k with h | h
    · subst h; simp [dictSet, dictGet]
    · simp [dictSet, dictGet, h, Ne.symm h]
  | cons p rest ih =>
    obtain ⟨k0, v0⟩ := p
    rcases eq_or_ne k0 k with h0 | h0
    · subst h0
      rcases eq_or_ne k' k0 with h | h
      · subst h; simp [dictSet, dictGet]
      · simp [dictSet, dictGet, h, Ne.symm h]
    · rcases eq_or_ne k0 k' with h | h
      · subst h
        simp [dictSet, dictGet, h0, Ne.symm h0]
      · simp [dictSet, dictGet, h0, h, ih]

/-- Reading below the appended end of the heap sees the original heap. -/
theorem heapGet_append_lt (h : Heap) (d : ClaimsDict) (a : Nat)
    (ha : a < h.length) : heapGet (h ++ [d]) a = heapGet h a := by
  induction h generalizing a with
  | nil => exact absurd ha (Nat.not_lt_zero a)
  | cons x rest ih =>
    cases a with
    | zero => rfl
    | succ a =>
      exact ih a (by simp only [List.length_cons] at ha; omega)

/-- Reading the address one past the original heap end sees the appended
dict. -/
theorem heapGet_append_len (h : Heap) (d : ClaimsDict) :
    heapGet (h ++ [d]) h.length = d := by
  induction h with
  | nil => rfl
  | cons x rest ih => simpa [heapGet] using ih

/-- Mutating one heap address leaves every other address unchanged. -/
theorem heapGet_heapSet_ne (h : Heap) (a b : Nat) (k : String) (v : ClaimVal)
    (hab : a ≠ b) : heapGet (heapSet h b k v) a = heapGet h a := by
  induction h generalizing a b with
  | nil => rfl
  | cons x rest ih =>
    cases b with
    | zero =>
      cases a with
      | zero => exact absurd rfl hab
      | succ a => rfl
    | succ b =>
      cases a with
      | zero => rfl
      | succ a => exact ih a b (by omega)

/-- Mutating a live heap address performs the dict assignment there. -/
theorem heapGet_heapSet_self (h : Heap) (b : Nat) (k : String) (v : ClaimVal)
    (hb : b < h.length) :
    heapGet (heapSet h b k v) b = dictSet (heapGet h b) k v := by
  induction h generalizing b with
  | nil => exact absurd hb (Nat.not_lt_zero b)
  | cons x rest ih =>
    cases b with
    | zero => rfl
    | succ b =>
      exact ih b (by simp only [List.length_cons] at hb; omega)

/-- heapSet preserves the heap size. -/
theorem heapSet_length (h : Heap) (b : Nat) (k : String) (v : ClaimVal) :
    (heapSet h b k v).length = h.length := by
  induction h generalizing b with
  | nil => rfl
  | cons x rest ih =>
    cases b with
    | zero => rfl
    | succ b => simp [heapSet, ih]

/-- Consistency of the two embeddings of create_jwt_token: the token the heap
version builds is exactly the pure version applied to the dict stored at the
argument address. -/
theorem create_jwt_token_heap_agrees (h : Heap) (a now ttl : Nat)
    (key : String) :
    (create_jwt_token_heap h a now ttl key).2 =
      create_jwt_token (heapGet h a) now ttl key := by
  simp only [create_jwt_token_heap, create_jwt_token]
  rw [heapGet_heapSet_self, heapGet_heapSet_self, heapGet_append_len]
  · simp
  · rw [heapSet_length]; simp

/-! ## Claim C1 -/

/-- Claim C1 counterexample: the claim asserts that a code submitted at or
after expiry *always* returns CODE_EXPIRED for every contact with a pending
verification, but an actively locked contact whose code is also expired gets
LOCKED, because the active-lock check runs before the expiry check. -/
theorem claim_C1_counterexample :
    uLockedExpired.otp_expires ≤ 400 ∧
    (verify_otp (some uLockedExpired) 400 "123456").1 = .LOCKED ∧
    (verify_otp (some uLockedExpired) 400 "123456").1 ≠ .CODE_EXPIRED := by
  decide

/-- Claim C1 (amended): in verify_otp, for every contact whose pending
verification holds no active lock, the expiry check is applied before the
lockout-threshold check and before the code-equality check: a code submitted
at or after issued_at + 5 minutes returns CODE_EXPIRED regardless of whether
the submitted code equals the stored code, and leaves the row — in
particular its attempt count — unchanged. -/
theorem claim_C1 (u : UnverifiedUser) (issued now : Nat) (code : String)
    (hnl : lockActive u now = false)
    (hiss : u.otp_expires = issued + 5 * 60)
    (hnow : issued + 5 * 60 ≤ now) :
    verify_otp (some u) now code = (.CODE_EXPIRED, some u) := by
  simp [verify_otp, hnl, hiss, hnow]

/-- Claim C1 witness: the fresh row's correct code "123456", submitted exactly
at expiry, is reported expired with the row unchanged. -/
theorem claim_C1_witness :
    verify_otp (some uFresh) 300 "123456" = (.CODE_EXPIRED, some uFresh) :=
  claim_C1 uFresh 0 300 "123456" (by decide) (by decide) (by decide)

/-! ## Claim C3 -/

/-- Claim C3: decoding an encoded claim set with the signing key before the
ttl has elapsed returns the original claims with the exp and iat fields
added (every other key reads exactly as in the input dict), while decoding
at or after issuance + ttl fails with ExpiredSignatureError instead of
returning the claims. -/
theorem claim_C3 (data : ClaimsDict) (t0 ttl t t' : Nat) (key : String)
    (h1 : t < t0 + ttl) (h2 : t0 + ttl ≤ t') :
    decode_jwt_token (create_jwt_token data t0 ttl key) key t =
      .ok (dictSet (dictSet data "exp" (.n (t0 + ttl))) "iat" (.n t0)) ∧
    (∀ k, k ≠ "exp" → k ≠ "iat" →
      dictGet (dictSet (dictSet data "exp" (.n (t0 + ttl))) "iat" (.n t0)) k =
        dictGet data k) ∧
    decode_jwt_token (create_jwt_token data t0 ttl key) key t' =
      .error .ExpiredSignatureError := by
  have hexp : dictGet (dictSet (dictSet data "exp" (.n (t0 + ttl)))
      "iat" (.n t0)) "exp" = some (.n (t0 + ttl)) := by
    rw [dictGet_dictSet, if_neg (by decide), dictGet_dictSet, if_pos rfl]
  refine ⟨?_, ?_, ?_⟩
  · simp only [decode_jwt_token, create_jwt_token, hexp]
    simp [Nat.not_le.mpr h1]
  · intro k hk1 hk2
    rw [dictGet_dictSet, if_neg hk2, dictGet_dictSet, if_neg hk1]
  · simp only [decode_jwt_token, create_jwt_token, hexp]
    simp [h2]

/-- Claim C3 witness: a subject claim encoded at time 0 with a 10-second ttl
decodes back at time 5 and is expired at time 10. -/
theorem claim_C3_witness :
    decode_jwt_token (create_jwt_token [("sub", .n 1)] 0 10 "k") "k" 5 =
      .ok (dictSet (dictSet [("sub", .n 1)] "exp" (.n (0 + 10))) "iat" (.n 0)) ∧
    (∀ k, k ≠ "exp" → k ≠ "iat" →
      dictGet (dictSet (dictSet [("sub", .n 1)] "exp" (.n (0 + 10)))
        "iat" (.n 0)) k = dictGet [("sub", .n 1)] k) ∧
    decode_jwt_token (create_jwt_token [("sub", .n 1)] 0 10 "k") "k" 10 =
      .error .ExpiredSignatureError :=
  claim_C3 [("sub", .n 1)] 0 10 5 10 "k" (by decide) (by decide)

/-! ## Claim C10 -/

/-- Claim C10: create_jwt_token never mutates its caller's claims dict — on
the heap, the dict object at the caller's address reads the same after the
call, since the exp and iat insertions touch only the freshly allocated
copy. -/
theorem claim_C10 (h : Heap) (a now ttl : Nat) (key : String)
    (ha : a < h.length) :
    heapGet (create_jwt_token_heap h a now ttl key).1 a = heapGet h a := by
  simp only [create_jwt_token_heap]
  rw [heapGet_heapSet_ne _ _ _ _ _ (Nat.ne_of_lt ha),
      heapGet_heapSet_ne _ _ _ _ _ (Nat.ne_of_lt ha),
      heapGet_append_lt _ _ _ ha]

/-- Claim C10 witness: on a one-dict heap, the caller's dict at address 0 is
unchanged by the call. -/
theorem claim_C10_witness :
    heapGet (create_jwt_token_heap heapW 0 0 3600 "k").1 0 = heapGet heapW 0 :=
  claim_C10 heapW 0 0 3600 "k" (by decide)

/-! ## Claim C2 -/

/-- Splitting a verify sequence at an append boundary. -/
theorem runVerifies_append (row : Option UnverifiedUser)
    (xs ys : List (Nat × String)) :
    runVerifies row (xs ++ ys) =
      ((runVerifies row xs).1 ++ (runVerifies (runVerifies row xs).2 ys).1,
       (runVerifies (runVerifies row xs).2 ys).2) := by
  induction xs generalizing row with
  | nil => simp [runVerifies]
  | cons p rest ih =>
    obtain ⟨t, c⟩ := p
    simp [runVerifies, ih]

/-- A run of wrong codes below the threshold: every call answers
CODE_INVALID and the only state change is the attempt count, which rises by
one per call. -/
theorem runVerifies_wrong (calls : List (Nat × String)) (u : UnverifiedUser)
    (hl : u.is_locked = false)
    (hc : ∀ p ∈ calls, p.1 < u.otp_expires ∧ p.2 ≠ u.otp_secret)
    (hb : u.verification_attempts + calls.length < MAX_ATTEMPTS) :
    runVerifies (some u) calls =
      (List.replicate calls.length .CODE_INVALID,
       some { u with verification_attempts :=
                       u.verification_attempts + calls.length }) := by
  induction calls generalizing u with
  | nil => simp [runVerifies]
  | cons p rest ih =>
    obtain ⟨t, c⟩ := p
    have hp := hc (t, c) (List.mem_cons_self _ _)
    have hstep : verify_otp (some u) t c =
        (.CODE_INVALID,
         some { u with verification_attempts := u.verification_attempts + 1 }) := by
      have hla : lockActive u t = false := by simp [lockActive, hl]
      have hmax : ¬ MAX_ATTEMPTS ≤ u.verification_attempts + 1 := by
        simp only [List.length_cons] at hb
        omega
      simp [verify_otp, hla, Nat.not_le.mpr hp.1, hp.2, hmax]
    have hrest := ih { u with verification_attempts := u.verification_attempts + 1 }
      (by simpa using hl)
      (by intro q hq; simpa using hc q (List.mem_cons_of_mem _ hq))
      (by show u.verification_attempts + 1 + rest.length < MAX_ATTEMPTS
          simp only [List.length_cons] at hb
          omega)
    simp [runVerifies, hstep, hrest, List.replicate_succ]
    omega

/-- Claim C2: starting from a fresh row (attempt count 0, unlocked), a run of
exactly MAX_ATTEMPTS wrong-code verify calls (each before the code's expiry)
answers CODE_INVALID for the first MAX_ATTEMPTS - 1 calls and MAX_ATTEMPTS
for the last, leaving the row locked with
`lock_expires_at = tlast + LOCK_DURATION`; every subsequent verify call
while `now < lock_expires_at` — with any code, the stored one included —
returns LOCKED and never SUCCESS. -/
theorem claim_C2 (u : UnverifiedUser) (calls : List (Nat × String))
    (tlast : Nat) (clast : String)
    (ha : u.verification_attempts = 0) (hl : u.is_locked = false)
    (hlen : calls.length + 1 = MAX_ATTEMPTS)
    (hc : ∀ p ∈ calls, p.1 < u.otp_expires ∧ p.2 ≠ u.otp_secret)
    (htl : tlast < u.otp_expires) (hcl : clast ≠ u.otp_secret) :
    runVerifies (some u) (calls ++ [(tlast, clast)]) =
      (List.replicate calls.length .CODE_INVALID ++ [.MAX_ATTEMPTS],
       some (lockedRow u tlast)) ∧
    (lockedRow u tlast).is_locked = true ∧
    (lockedRow u tlast).lock_expires = tlast + LOCK_DURATION ∧
    ∀ t c, t < tlast + LOCK_DURATION →
      (verify_otp (some (lockedRow u tlast)) t c).1 = .LOCKED ∧
      (verify_otp (some (lockedRow u tlast)) t c).1 ≠ .SUCCESS := by
  refine ⟨?_, rfl, rfl, ?_⟩
  · have h1 := runVerifies_wrong calls u hl hc (by omega)
    have hstep : verify_otp
        (some { u with verification_attempts :=
                         u.verification_attempts + calls.length }) tlast clast
        = (.MAX_ATTEMPTS, some (lockedRow u tlast)) := by
      have hla : lockActive { u with verification_attempts :=
          u.verification_attempts + calls.length } tlast = false := by
        simp [lockActive, hl]
      have hmax : MAX_ATTEMPTS ≤ u.verification_attempts + calls.length + 1 := by
        omega
      simp [verify_otp, hla, Nat.not_le.mpr htl, hcl, hmax, lockedRow]
      omega
    rw [runVerifies_append, h1]
    simp [runVerifies, hstep]
  · intro t c ht
    have hla : lockActive (lockedRow u tlast) t = true := by
      simp [lockActive, lockedRow, ht]
    exact ⟨by simp [verify_otp, hla], by simp [verify_otp, hla]⟩

/-- Claim C2 witness: four wrong codes then a fifth wrong code against the
fresh row lock it at time 4; afterwards even the stored code "123456" is
answered LOCKED while the lock runs. -/
theorem claim_C2_witness :
    runVerifies (some uFresh) (callsW ++ [(4, "111111")]) =
      (List.replicate callsW.length .CODE_INVALID ++ [.MAX_ATTEMPTS],
       some (lockedRow uFresh 4)) ∧
    (lockedRow uFresh 4).is_locked = true ∧
    (lockedRow uFresh 4).lock_expires = 4 + LOCK_DURATION ∧
    ∀ t c, t < 4 + LOCK_DURATION →
      (verify_otp (some (lockedRow uFresh 4)) t c).1 = .LOCKED ∧
      (verify_otp (some (lockedRow uFresh 4)) t c).1 ≠ .SUCCESS :=
  claim_C2 uFresh callsW 4 "111111" rfl rfl (by decide) (by decide)
    (by decide) (by decide)

/-! ## Claim C6 -/

/-- Claim C6: for every contact whose current row holds no active lock, a
successful send_otp overwrites the pending row with the fresh code, expiry
`now + 5 minutes`, attempt count 0, and the lock cleared; hence after two
consecutive sends the second code verifies (before its expiry) and the
first, distinct code is rejected as CODE_INVALID. -/
theorem claim_C6 (row : Option UnverifiedUser) (t1 t2 : Nat)
    (c1 c2 ch1 ch2 : String)
    (hok : sendAllowed row t1 = true) (hne : c1 ≠ c2) :
    send_otp row t1 c1 ch1 = .sent ⟨c1, t1 + OTP_TTL, ch1, 0, false, 0⟩ ∧
    send_otp (some ⟨c1, t1 + OTP_TTL, ch1, 0, false, 0⟩) t2 c2 ch2 =
      .sent ⟨c2, t2 + OTP_TTL, ch2, 0, false, 0⟩ ∧
    ∀ t, t < t2 + OTP_TTL →
      (verify_otp (some ⟨c2, t2 + OTP_TTL, ch2, 0, false, 0⟩) t c2).1 =
        .SUCCESS ∧
      (verify_otp (some ⟨c2, t2 + OTP_TTL, ch2, 0, false, 0⟩) t c1).1 =
        .CODE_INVALID := by
  refine ⟨by simp [send_otp, hok], by simp [send_otp, sendAllowed, lockActive], ?_⟩
  intro t ht
  constructor
  · simp [verify_otp, lockActive, Nat.not_le.mpr ht]
  · simp [verify_otp, lockActive, Nat.not_le.mpr ht, hne, MAX_ATTEMPTS]

/-- Claim C6 witness: with no prior row, sending "111111" at time 0 and then
"222222" at time 10 leaves a row on which "222222" succeeds at time 100 and
"111111" is invalid. -/
theorem claim_C6_witness :
    send_otp none 0 "111111" "email" =
      .sent ⟨"111111", 0 + OTP_TTL, "email", 0, false, 0⟩ ∧
    send_otp (some ⟨"111111", 0 + OTP_TTL, "email", 0, false, 0⟩) 10 "222222"
        "email" = .sent ⟨"222222", 10 + OTP_TTL, "email", 0, false, 0⟩ ∧
    ∀ t, t < 10 + OTP_TTL →
      (verify_otp (some ⟨"222222", 10 + OTP_TTL, "email", 0, false, 0⟩) t
        "222222").1 = .SUCCESS ∧
      (verify_otp (some ⟨"222222", 10 + OTP_TTL, "email", 0, false, 0⟩) t
        "111111").1 = .CODE_INVALID :=
  claim_C6 none 0 10 "111111" "222222" "email" "email" (by decide) (by decide)

/-! ## Claim C7 -/

/-- Claim C7: the send-otp route produces only the statuses 200, 403, and
500: 200 with the message body when the service call and the dispatch
succeed, 403 exactly when the stored row is locked with
`now < lock_expires`, and 500 when delivery fails. -/
theorem claim_C7 (row : Option UnverifiedUser) (now : Nat)
    (code channel : String) (deliveryOk : Bool) :
    ((send_otp_route row now code channel deliveryOk).statusCode = 200 ∨
     (send_otp_route row now code channel deliveryOk).statusCode = 403 ∨
     (send_otp_route row now code channel deliveryOk).statusCode = 500) ∧
    (∀ u, row = some u → u.is_locked = true → now < u.lock_expires →
      send_otp_route row now code channel deliveryOk =
        .httpError 403
          "Too many incorrect attempts. You have been temporarily locked out.") ∧
    (sendAllowed row now = true → deliveryOk = true →
      send_otp_route row now code channel deliveryOk =
        .ok [("message", .s ("OTP sent via " ++ channel))] none) ∧
    (sendAllowed row now = true → deliveryOk = false →
      (send_otp_route row now code channel deliveryOk).statusCode = 500) := by
  cases hs : sendAllowed row now with
  | false =>
    have hr : send_otp_route row now code channel deliveryOk =
        .httpError 403
          "Too many incorrect attempts. You have been temporarily locked out." := by
      simp [send_otp_route, send_otp, hs]
    refine ⟨by rw [hr]; right; left; rfl, fun u hu h1 h2 => hr, ?_, ?_⟩
    · intro h; exact absurd h (by simp [hs])
    · intro h _; exact absurd h (by simp [hs])
  | true =>
    cases hd : deliveryOk with
    | false =>
      have hr : send_otp_route row now code channel false =
          .httpError 500 "You are not connected" := by
        simp [send_otp_route, send_otp, hs]
      refine ⟨by rw [hr]; right; right; rfl, ?_, fun _ h => Bool.noConfusion h,
        fun _ _ => by rw [hr]; rfl⟩
      · intro u hu h1 h2
        subst hu
        simp [sendAllowed, lockActive, h1, h2] at hs
    | true =>
      have hr : send_otp_route row now code channel true =
          .ok [("message", .s ("OTP sent via " ++ channel))] none := by
        simp [send_otp_route, send_otp, hs]
      refine ⟨by rw [hr]; left; rfl, ?_, fun _ _ => hr,
        fun _ h => Bool.noConfusion h⟩
      · intro u hu h1 h2
        subst hu
        simp [sendAllowed, lockActive, h1, h2] at hs

/-- Claim C7 witness: a locked row gets 403, a fresh contact with working
delivery gets 200 with the message, and a delivery failure gets 500. -/
theorem claim_C7_witness :
    send_otp_route (some uLockedExpired) 400 "654321" "email" true =
      .httpError 403
        "Too many incorrect attempts. You have been temporarily locked out." ∧
    send_otp_route none 0 "654321" "email" true =
      .ok [("message", .s ("OTP sent via " ++ "email"))] none ∧
    (send_otp_route none 0 "654321" "email" false).statusCode = 500 :=
  ⟨(claim_C7 (some uLockedExpired) 400 "654321" "email" true).2.1
      uLockedExpired rfl rfl (by decide),
   (claim_C7 none 0 "654321" "email" true).2.2.1 rfl rfl,
   (claim_C7 none 0 "654321" "email" false).2.2.2 rfl rfl⟩

/-! ## Claim C4 -/

/-- Claim C4: the verify-otp route maps each verifier outcome to exactly one
HTTP status: SUCCESS to 200 with the token set as the auth_token cookie and
onboarding and role in the body; LOCKED and MAX_ATTEMPTS to 403;
CODE_EXPIRED and CODE_INVALID to 400; NOT_FOUND to 404; and any other
outcome (no recognised status) to 500. -/
theorem claim_C4 (remember : Bool) (token : String) (onboarding : Bool)
    (role env : String) (dom : Option String) :
    verify_otp_route (some .SUCCESS) remember token onboarding role env dom =
      .ok [("message", .s "OTP verified successfully"),
           ("onboarding", .b onboarding), ("role", .s role)]
        (some (set_auth_cookie env dom token (session_ttl remember))) ∧
    (set_auth_cookie env dom token (session_ttl remember)).key = "auth_token" ∧
    (set_auth_cookie env dom token (session_ttl remember)).value = token ∧
    (verify_otp_route (some .LOCKED) remember token onboarding role env
      dom).statusCode = 403 ∧
    (verify_otp_route (some .MAX_ATTEMPTS) remember token onboarding role env
      dom).statusCode = 403 ∧
    (verify_otp_route (some .CODE_EXPIRED) remember token onboarding role env
      dom).statusCode = 400 ∧
    (verify_otp_route (some .CODE_INVALID) remember token onboarding role env
      dom).statusCode = 400 ∧
    (verify_otp_route (some .NOT_FOUND) remember token onboarding role env
      dom).statusCode = 404 ∧
    (verify_otp_route none remember token onboarding role env
      dom).statusCode = 500 := by
  refine ⟨rfl, ?_, ?_, rfl, rfl, rfl, rfl, rfl, rfl⟩
  · unfold set_auth_cookie
    split <;> rfl
  · unfold set_auth_cookie
    split <;> rfl

/-! ## Claim C5 -/

/-- Claim C5: on a successful verification the minted session token carries
`exp = issuance + 2592000` seconds (30 days) when remember is true and
`exp = issuance + 3600` seconds (1 hour) when false, with `iat` the issuance
time, and the auth cookie the route sets carries the token with the same
lifetime as its max_age. -/
theorem claim_C5 (sub : Nat) (onboarding : Bool) (role : String) (now : Nat)
    (remember : Bool) (key token env : String) (dom : Option String) :
    dictGet (mint_session_token sub onboarding role now remember key).payload
        "exp" = some (.n (now + (if remember then 2592000 else 3600))) ∧
    dictGet (mint_session_token sub onboarding role now remember key).payload
        "iat" = some (.n now) ∧
    ∃ body cookie,
      verify_otp_route (some .SUCCESS) remember token onboarding role env dom =
        .ok body (some cookie) ∧
      cookie.value = token ∧
      cookie.max_age = (if remember then 2592000 else 3600) := by
  have httl : session_ttl remember = (if remember then 2592000 else 3600) := by
    unfold session_ttl
    cases remember <;> norm_num
  refine ⟨?_, ?_, ?_⟩
  · unfold mint_session_token create_jwt_token
    rw [dictGet_dictSet, if_neg (by decide), dictGet_dictSet, if_pos rfl, httl]
  · unfold mint_session_token create_jwt_token
    rw [dictGet_dictSet, if_pos rfl]
  · refine ⟨_, set_auth_cookie env dom token (session_ttl remember), rfl, ?_, ?_⟩
    · unfold set_auth_cookie
      split <;> rfl
    · have hma : (set_auth_cookie env dom token (session_ttl remember)).max_age =
          session_ttl remember := by
        unfold set_auth_cookie
        split <;> rfl
      rw [hma, httl]

/-! ## Claim C8 -/

/-- Claim C8 counterexample: on a valid token for an existing user the /me
body carries the subject identifier under the key "user_id"; there is no
"subject_id" field, contradicting the claimed field list. -/
theorem claim_C8_counterexample :
    auth_me (some (.valid tokSub7)) "k" 0 dbSub7 =
      .ok [("authenticated", .b true), ("user_id", .n 7),
           ("onboarding", .b true), ("role", .s "driver"),
           ("is_active", .b true)] none ∧
    dictGet [("authenticated", .b true), ("user_id", .n 7),
             ("onboarding", .b true), ("role", .s "driver"),
             ("is_active", .b true)] "subject_id" = none := by
  decide

/-- Claim C8 (amended): GET /auth/me returns 401 whenever the cookie is
missing or its token is invalid or expired; when the token decodes, its sub
claim parses, and the subject matches an existing user, it returns 200 with
a body whose fields are authenticated, user_id (the token's sub claim — the
subject-identifier field is named user_id, not subject_id), onboarding,
role, and is_active. -/
theorem claim_C8 (key : String) (now : Nat) (db : List UserRow) :
    auth_me none key now db = .httpError 401 "Not authenticated" ∧
    (∀ blob, decodeBlob blob key now = .expired →
      auth_me (some blob) key now db = .httpError 401 "Token expired") ∧
    (∀ blob, decodeBlob blob key now = .invalid →
      auth_me (some blob) key now db = .httpError 401 "Invalid token") ∧
    (∀ blob payload uid u, decodeBlob blob key now = .ok payload →
      parseSub payload = some uid → dbGetUser db uid = some u →
      auth_me (some blob) key now db =
        .ok [("authenticated", .b true),
             ("user_id", (dictGet payload "sub").getD .null),
             ("onboarding", (dictGet payload "onboarding").getD (.b false)),
             ("role", .s u.role),
             ("is_active", .b u.is_active)] none) := by
  refine ⟨rfl, ?_, ?_, ?_⟩
  · intro blob h
    simp [auth_me, h]
  · intro blob h
    simp [auth_me, h]
  · intro blob payload uid u h1 h2 h3
    simp [auth_me, h1, h2, h3]

/-- Claim C8 witness: a missing cookie, a garbage cookie, an expired token,
and a valid token for the stored subject 7, all at time 5. -/
theorem claim_C8_witness :
    auth_me none "k" 5 dbSub7 = .httpError 401 "Not authenticated" ∧
    auth_me (some .garbage) "k" 5 dbSub7 = .httpError 401 "Invalid token" ∧
    auth_me (some (.valid tokExpired)) "k" 5 dbSub7 =
      .httpError 401 "Token expired" ∧
    auth_me (some (.valid tokSub7)) "k" 5 dbSub7 =
      .ok [("authenticated", .b true), ("user_id", .n 7),
           ("onboarding", .b true), ("role", .s "driver"),
           ("is_active", .b true)] none :=
  ⟨(claim_C8 "k" 5 dbSub7).1,
   (claim_C8 "k" 5 dbSub7).2.2.1 .garbage (by decide),
   (claim_C8 "k" 5 dbSub7).2.1 (.valid tokExpired) (by decide),
   (claim_C8 "k" 5 dbSub7).2.2.2 (.valid tokSub7)
     [("sub", .n 7), ("onboarding", .b true)] 7 ⟨7, "driver", true⟩
     (by decide) (by decide) (by decide)⟩

/-! ## Claim C9 -/

/-- Claim C9 counterexample: for the valid token of subject 7 against an
empty users table, GET /auth/me answers 401 with detail
"Authentication failed" — not "Invalid token claims" as the claim states:
the inner HTTPException(401, "Invalid token claims") raised on that branch
(auth.py line 154) is caught by the handler's generic except (line 170) and
re-raised with the generic detail.  The shared dependency still answers 404
"User not found". -/
theorem claim_C9_counterexample :
    auth_me (some (.valid tokSub7)) "k" 0 [] =
      .httpError 401 "Authentication failed" ∧
    auth_me (some (.valid tokSub7)) "k" 0 [] ≠
      .httpError 401 "Invalid token claims" ∧
    get_current_user_dep (some (.valid tokSub7)) "k" 0 [] =
      .httpError 404 "User not found" := by
  decide

/-- Claim C9 (amended): on a decodable, unexpired token whose subject id
matches no user, GET /auth/me in auth.py answers 401 — with detail
"Authentication failed", since the inner 401 "Invalid token claims" raise is
swallowed by the handler's generic except clause — while the shared
get_current_user dependency in security.py answers 404 "User not found":
the two authenticated entry points still disagree on the status code for
this edge case. -/
theorem claim_C9 (blob : TokenBlob) (key : String) (now : Nat)
    (db : List UserRow) (payload : ClaimsDict) (uid : Nat)
    (h1 : decodeBlob blob key now = .ok payload)
    (h2 : parseSub payload = some uid)
    (h3 : dbGetUser db uid = none) :
    auth_me (some blob) key now db = .httpError 401 "Authentication failed" ∧
    get_current_user_dep (some blob) key now db =
      .httpError 404 "User not found" ∧
    (auth_me (some blob) key now db).statusCode = 401 := by
  refine ⟨?_, ?_, ?_⟩
  · simp [auth_me, h1, h2, h3]
  · simp [get_current_user_dep, h1, h2, h3]
  · simp [auth_me, h1, h2, h3, HttpResult.statusCode]

/-- Claim C9 witness: the valid token for subject 7 against an empty users
table. -/
theorem claim_C9_witness :
    auth_me (some (.valid tokSub7)) "k" 5 [] =
      .httpError 401 "Authentication failed" ∧
    get_current_user_dep (some (.valid tokSub7)) "k" 5 [] =
      .httpError 404 "User not found" ∧
    (auth_me (some (.valid tokSub7)) "k" 5 []).statusCode = 401 :=
  claim_C9 (.valid tokSub7) "k" 5 []
    [("sub", .n 7), ("onboarding", .b true)] 7 (by decide) (by decide)
    (by decide)
